import Mathlib

/-!
Shallow embedding of the Mindbody→WATI webhook adapter (src/index.js).

Conventions used throughout:
* A JavaScript value that may be absent (`undefined`) is an `Option`.
* JS string truthiness (`""` is falsy) is `isTruthy`; the JS `||` operator on
  string-valued expressions is `jsOrStr` / `jsOrD`; on object-valued
  expressions every object is truthy, so `||` is `Option.orElse`.
* The JS `Date`/locale rendering used by `formatDateSpanish` and `formatTime`
  is platform-provided and is modelled as an explicit function parameter of
  the handler, and the network result of the `axios.post` call inside
  `sendWatiTemplateMessage` is modelled as an explicit `ProviderOutcome`
  parameter; everything else is translated directly from the source.
-/

/-- JS truthiness of a possibly-absent string: present and non-empty. -/
def isTruthy : Option String → Bool
  | some s => !(s == "")
  | none => false

/-- JS `a || b` for string-valued expressions (`""` and absent are falsy). -/
def jsOrStr (a b : Option String) : Option String :=
  match a with
  | some s => if s == "" then b else some s
  | none => b

/-- JS `a || d` where `d` is a non-empty string literal default. -/
def jsOrD (a : Option String) (d : String) : String :=
  match a with
  | some s => if s == "" then d else s
  | none => d

/-- JS `String.prototype.toLowerCase`, character by character. -/
def toLowerStr (s : String) : String := String.mk (s.toList.map Char.toLower)

/-- Prefix test on character lists (for the substring test below). -/
def listIsPrefixOf : List Char → List Char → Bool
  | [], _ => true
  | _ :: _, [] => false
  | a :: as, b :: bs => a == b && listIsPrefixOf as bs

/-- Substring occurrence test on character lists. -/
def listIsInfixOf (pat : List Char) (s : List Char) : Bool :=
  match s with
  | [] => listIsPrefixOf pat []
  | _ :: rest => listIsPrefixOf pat s || listIsInfixOf pat rest

/-- JS `s.includes(pat)`. -/
def jsIncludes (s pat : String) : Bool := listIsInfixOf pat.toList s.toList

/-- JS `s.startsWith(pre)`. -/
def strStartsWith (s pre : String) : Bool := listIsPrefixOf pre.toList s.toList

/-- `phone.replace(/\D/g, '')`: strip every non-digit character. -/
def cleanDigits (s : String) : String := String.mk (s.toList.filter Char.isDigit)

/-- src/index.js `formatPhoneNumber` (lines 67-84): `null` for a falsy input,
otherwise strip non-digits, then two sequential 8-digit checks each of which
prepends the country code `"507"`. -/
def formatPhoneNumber (phone : String) : Option String :=
  if phone = "" then none
  else
    let c1 := cleanDigits phone
    let c2 := if c1.length = 8 ∧ strStartsWith c1 "6" then "507" ++ c1 else c1
    let c3 := if c2.length = 8 then "507" ++ c2 else c2
    some c3

/-- Modelled from the spec: the single-rule phone formatter the spec says the
two 8-digit branches collapse to — any 8-digit cleaned digit string receives
the `"507"` country code, everything else passes through. Used only to compare
against `formatPhoneNumber` for the refinement claim. -/
def formatPhoneNumberSingle (phone : String) : Option String :=
  if phone = "" then none
  else
    let c := cleanDigits phone
    some (if c.length = 8 then "507" ++ c else c)

/-- One entry of `config.locations`. -/
structure LocationInfo where
  name : String
  address : String
deriving DecidableEq

/-- src/index.js `config.locations` (lines 18-29), as the JS object-indexing
map: key → entry, absent keys give `undefined`. -/
def configLocations (key : String) : Option LocationInfo :=
  if key = "costa-del-este" then some ⟨"Costa del Este", "Plaza Costa del Este, Local 45"⟩
  else if key = "san-francisco" then some ⟨"San Francisco", "Calle 74, San Francisco"⟩
  else none

/-- `Object.keys(config.locations)` in the source's insertion order. -/
def configLocationKeys : List String := ["costa-del-este", "san-francisco"]

/-- The `locationMap` literal inside `getLocationInfo` is empty, so every
index, including `undefined`, yields `undefined`. -/
def locationMap (_locationId : Option String) : Option String := none

/-- src/index.js `getLocationInfo` (lines 120-129). -/
def getLocationInfo (locationId : Option String) : Option LocationInfo :=
  let locationKey := (locationMap locationId).orElse fun _ => configLocationKeys.head?
  (locationKey.bind configLocations).orElse fun _ => configLocations "costa-del-este"

/-- `config.templateName` with the environment override absent (the default
`'appointment_confirmation'`). -/
def templateName : String := "appointment_confirmation"

/-- One `{name, value}` entry of the WATI `parameters` array. -/
structure Param where
  name : String
  value : String
deriving DecidableEq

/-- The observable content of the one outbound `axios.post` to WATI:
the `whatsappNumber` query parameter and the JSON body fields. -/
structure OutboundCall where
  whatsappNumber : String
  template_name : String
  broadcast_name : String
  parameters : List Param
deriving DecidableEq

/-- Result of the provider transport (`axios.post`): success with response
data, or failure with the detail `error.response?.data || error.message`. -/
inductive ProviderOutcome where
  | ok (data : String)
  | fail (error : String)
deriving DecidableEq

/-- `true` exactly on `ProviderOutcome.ok`. -/
def providerSucceeds : ProviderOutcome → Bool
  | .ok _ => true
  | .fail _ => false

/-- The value `sendWatiTemplateMessage` returns:
`{success:true, data}` or `{success:false, error}`. -/
structure DeliveryResult where
  success : Bool
  data : Option String
  error : Option String
deriving DecidableEq

/-- src/index.js `sendWatiTemplateMessage` (lines 41-62): performs one provider
call and converts its outcome into a `DeliveryResult`, never throwing. The
pair's second component records the outbound call that was made. -/
def sendWatiTemplateMessage (outcome : ProviderOutcome) (phoneNumber tname : String)
    (parameters : List Param) : DeliveryResult × OutboundCall :=
  let call : OutboundCall := ⟨phoneNumber, tname, "appointment_confirmation", parameters⟩
  match outcome with
  | .ok d => (⟨true, some d, none⟩, call)
  | .fail e => (⟨false, none, some e⟩, call)

/-- `appointment.SessionType` / `appointment.sessionType` sub-object. -/
structure SessionTypeObj where
  Name : Option String := none
  name : Option String := none
deriving DecidableEq

/-- `appointment.Location` / `appointment.location` sub-object. -/
structure LocationObj where
  Id : Option String := none
  id : Option String := none
deriving DecidableEq

/-- The client object: every key the handler probes on it. -/
structure ClientObj where
  FirstName : Option String := none
  firstName : Option String := none
  name : Option String := none
  MobilePhone : Option String := none
  mobilePhone : Option String := none
  Phone : Option String := none
  phone : Option String := none
  HomePhone : Option String := none
deriving DecidableEq

/-- The appointment-level keys the handler probes. An event-data object can
itself serve as the appointment, and the payload as the event data, so the
event-data and payload structures extend this one. -/
structure ApptObj where
  client : Option ClientObj := none
  Client : Option ClientObj := none
  ServiceName : Option String := none
  serviceName : Option String := none
  SessionType : Option SessionTypeObj := none
  sessionType : Option SessionTypeObj := none
  StartDateTime : Option String := none
  startDateTime : Option String := none
  StartTime : Option String := none
  startTime : Option String := none
  LocationId : Option String := none
  locationId : Option String := none
  Location : Option LocationObj := none
  location : Option LocationObj := none
deriving DecidableEq

/-- The event-data object: possibly-nested appointment plus everything an
appointment object can carry (the fallback `... || eventData`). -/
structure EDataObj extends ApptObj where
  appointment : Option ApptObj := none
  Appointment : Option ApptObj := none
deriving DecidableEq

/-- The webhook payload: event-type keys, possibly-nested event data, plus
everything an event-data object can carry (the fallback `... || payload`).
`eventId`/`EventId` occur in upstream payloads but are never read by the
handler; they are carried here so that claims about them can be stated. -/
structure PayloadObj extends EDataObj where
  eventType : Option String := none
  EventType : Option String := none
  messageType : Option String := none
  eventData : Option EDataObj := none
  EventData : Option EDataObj := none
  eventId : Option String := none
  EventId : Option String := none
deriving DecidableEq

/-- `payload.eventType || payload.EventType || payload.messageType`. -/
def extractEventType (p : PayloadObj) : Option String :=
  jsOrStr p.eventType (jsOrStr p.EventType p.messageType)

/-- `payload.eventData || payload.EventData || payload`. -/
def extractEventData (p : PayloadObj) : EDataObj :=
  (p.eventData.orElse fun _ => p.EventData).getD p.toEDataObj

/-- `eventData.appointment || eventData.Appointment || eventData`. -/
def extractAppointment (p : PayloadObj) : ApptObj :=
  let ed := extractEventData p
  (ed.appointment.orElse fun _ => ed.Appointment).getD ed.toApptObj

/-- `appointment.client || appointment.Client || eventData.client ||
eventData.Client || {}`. -/
def extractClient (p : PayloadObj) : ClientObj :=
  let ed := extractEventData p
  let ap := extractAppointment p
  (((ap.client.orElse fun _ => ap.Client).orElse fun _ => ed.client).orElse
    fun _ => ed.Client).getD {}

/-- `client.FirstName || client.firstName || client.name || 'Cliente'`. -/
def extractClientName (p : PayloadObj) : String :=
  let c := extractClient p
  jsOrD (jsOrStr c.FirstName (jsOrStr c.firstName c.name)) "Cliente"

/-- `client.MobilePhone || client.mobilePhone || client.Phone || client.phone
|| client.HomePhone`. -/
def extractClientPhone (p : PayloadObj) : Option String :=
  let c := extractClient p
  jsOrStr c.MobilePhone (jsOrStr c.mobilePhone (jsOrStr c.Phone (jsOrStr c.phone c.HomePhone)))

/-- `appointment.ServiceName || appointment.serviceName ||
appointment.SessionType?.Name || appointment.sessionType?.name || 'Servicio'`. -/
def extractServiceName (p : PayloadObj) : String :=
  let ap := extractAppointment p
  jsOrD (jsOrStr ap.ServiceName (jsOrStr ap.serviceName
    (jsOrStr (ap.SessionType.bind fun st => st.Name)
      (ap.sessionType.bind fun st => st.name)))) "Servicio"

/-- `appointment.StartDateTime || appointment.startDateTime ||
appointment.StartTime || appointment.startTime`. -/
def extractStartDateTime (p : PayloadObj) : Option String :=
  let ap := extractAppointment p
  jsOrStr ap.StartDateTime (jsOrStr ap.startDateTime (jsOrStr ap.StartTime ap.startTime))

/-- `appointment.LocationId || appointment.locationId ||
appointment.Location?.Id || appointment.location?.id`. -/
def extractLocationId (p : PayloadObj) : Option String :=
  let ap := extractAppointment p
  jsOrStr ap.LocationId (jsOrStr ap.locationId
    (jsOrStr (ap.Location.bind fun l => l.Id) (ap.location.bind fun l => l.id)))

/-- The skip condition of the event filter:
`eventType && !eventType.toLowerCase().includes('appointment')`. -/
def eventFilterSkips (p : PayloadObj) : Bool :=
  isTruthy (extractEventType p) &&
    !(jsIncludes (toLowerStr ((extractEventType p).getD "")) "appointment")

/-- The JSON body of the webhook endpoint's HTTP response; absent keys are
`none`. -/
structure WebhookBody where
  received : Bool
  processed : Bool
  reason : Option String
  whatsappSent : Option Bool
  error : Option String
deriving DecidableEq

/-- `{received: true, processed: false, reason}`. -/
def filteredBody (reason : String) : WebhookBody := ⟨true, false, some reason, none, none⟩

/-- src/index.js `app.post('/webhook/mindbody/appointment')` (lines 161-248),
as a function of the platform date/time renderers, the provider outcome and
the payload, producing the (status, JSON body) response together with the
list of outbound provider calls performed. -/
def webhookHandler (fmtDate fmtTime : String → String) (outcome : ProviderOutcome)
    (payload : PayloadObj) : (Nat × WebhookBody) × List OutboundCall :=
  if eventFilterSkips payload then
    ((200, filteredBody "Not an appointment event"), [])
  else if !(isTruthy (extractClientPhone payload)) then
    ((200, filteredBody "No phone number"), [])
  else if !(isTruthy (extractStartDateTime payload)) then
    ((200, filteredBody "No start time"), [])
  else
    let formattedPhone := (formatPhoneNumber ((extractClientPhone payload).getD "")).getD ""
    let formattedDate := fmtDate ((extractStartDateTime payload).getD "")
    let formattedTime := fmtTime ((extractStartDateTime payload).getD "")
    let locationInfo := (getLocationInfo (extractLocationId payload)).getD ⟨"", ""⟩
    let templateParams : List Param :=
      [⟨"1", extractClientName payload⟩,
       ⟨"2", locationInfo.name⟩,
       ⟨"3", formattedDate⟩,
       ⟨"4", formattedTime⟩,
       ⟨"5", extractServiceName payload⟩,
       ⟨"6", locationInfo.address⟩]
    let r := sendWatiTemplateMessage outcome formattedPhone templateName templateParams
    if r.1.success then
      ((200, ⟨true, true, none, some true, none⟩), [r.2])
    else
      ((200, ⟨true, true, none, some false, r.1.error⟩), [r.2])

/-- The JSON body of `POST /test/send-confirmation`. -/
structure TestBody where
  phone : Option String := none
  name : Option String := none
  service : Option String := none
  date : Option String := none
  time : Option String := none
  location : Option String := none
deriving DecidableEq

/-- Response of the manual-trigger endpoint: the 400 error body or the raw
`DeliveryResult`. -/
inductive TestResp where
  | err (msg : String)
  | result (r : DeliveryResult)
deriving DecidableEq

/-- src/index.js `app.post('/test/send-confirmation')` (lines 253-276). -/
def testSendConfirmation (outcome : ProviderOutcome) (body : TestBody) :
    (Nat × TestResp) × List OutboundCall :=
  if !(isTruthy body.phone) then
    ((400, .err "Phone number required"), [])
  else
    let templateParams : List Param :=
      [⟨"1", jsOrD body.name "Test Cliente"⟩,
       ⟨"2", jsOrD body.location "Costa del Este"⟩,
       ⟨"3", jsOrD body.date "Lunes, 2 de diciembre 2024"⟩,
       ⟨"4", jsOrD body.time "2:00 PM"⟩,
       ⟨"5", jsOrD body.service "Masaje Relajante 60 min"⟩,
       ⟨"6", "Plaza Costa del Este"⟩]
    let r := sendWatiTemplateMessage outcome
      ((formatPhoneNumber (body.phone.getD "")).getD "") templateName templateParams
    ((200, .result r.1), [r.2])

/-! ## Concrete payloads used to instantiate the theorems -/

/-- A well-formed booking payload: appointment event type, phone and start
time all present. -/
def samplePayload : PayloadObj :=
  { eventType := some "appointmentBooked",
    client := some { FirstName := some "Ana", MobilePhone := some "6123-4567" },
    StartDateTime := some "2024-12-02T14:00:00" }

/-- A payload whose only content is a cancellation `eventId`. -/
def cancelPayload : PayloadObj := { eventId := some "appointmentCancelled" }

/-- A cancellation-`eventId` payload that also carries a phone and a start
time. -/
def cancelBookingPayload : PayloadObj :=
  { eventId := some "appointmentCancelled",
    client := some { MobilePhone := some "61234567" },
    StartDateTime := some "2025-01-10T09:00:00" }

/-- A payload with a non-appointment event type and no phone candidate. -/
def classEventPayload : PayloadObj := { eventType := some "classBooking" }

/-- The empty payload: no event type, no phone, no start time. -/
def emptyPayload : PayloadObj := {}

/-- A payload with phone and start time but no event-type candidate. -/
def noEventPayload : PayloadObj :=
  { client := some { MobilePhone := some "61234567" },
    StartDateTime := some "2025-03-04T10:30:00" }

/-! ## Helper lemmas -/

/-- Closed form of `formatPhoneNumber`: the two sequential 8-digit branches
amount to prepending `"507"` to any 8-digit cleaned digit string. -/
theorem formatPhone_core (s : String) :
    formatPhoneNumber s =
      if s = "" then none
      else some (if (cleanDigits s).length = 8 then "507" ++ cleanDigits s else cleanDigits s) := by
  have h507 : ("507" : String).length = 3 := rfl
  unfold formatPhoneNumber
  by_cases hs : s = ""
  · simp [hs]
  · by_cases h8 : (cleanDigits s).length = 8
    · by_cases h6 : strStartsWith (cleanDigits s) "6" = true
      · simp [hs, h8, h6, String.length_append, h507]
      · simp [hs, h8, h6]
    · simp [hs, h8]

/-! ## Claim theorems -/

/-- C2: for every non-empty input string the phone formatter strips all
non-digit characters; an 8-digit remainder gets `"507"` prepended (an
11-digit result), any other length passes through unchanged. -/
theorem formatPhoneNumber_8digit_rule (s : String) (h : s ≠ "") :
    formatPhoneNumber s =
      some (if (cleanDigits s).length = 8 then "507" ++ cleanDigits s else cleanDigits s) ∧
    ((cleanDigits s).length = 8 →
      ((formatPhoneNumber s).getD "").length = 11) := by
  have hcore := formatPhone_core s
  rw [if_neg h] at hcore
  refine ⟨hcore, fun h8 => ?_⟩
  rw [hcore, if_pos h8]
  show ("507" ++ cleanDigits s).length = 11
  rw [String.length_append, h8]
  decide

/-- C2 witness: the spec's example `"6123-4567" → "50761234567"`. -/
theorem formatPhoneNumber_8digit_rule_witness :
    ("6123-4567" : String) ≠ "" ∧ formatPhoneNumber "6123-4567" = some "50761234567" :=
  ⟨by decide, ((formatPhoneNumber_8digit_rule "6123-4567" (by decide)).1).trans (by decide)⟩

/-- C8: the starts-with-'6' 8-digit branch and the unconditional 8-digit
branch of `formatPhoneNumber` are redundant — the implemented formatter
is extensionally equal to the single-rule formatter that prepends `"507"`
to any 8-digit cleaned digit string. -/
theorem formatPhoneNumber_eq_single (s : String) :
    formatPhoneNumber s = formatPhoneNumberSingle s := by
  rw [formatPhone_core]
  unfold formatPhoneNumberSingle
  rfl

/-- C6: location resolution is total — for every location identifier input,
absent included, `getLocationInfo` returns an actual name/address pair,
never `undefined`. -/
theorem getLocationInfo_total (locationId : Option String) :
    ∃ info : LocationInfo, getLocationInfo locationId = some info :=
  ⟨⟨"Costa del Este", "Plaza Costa del Este, Local 45"⟩, rfl⟩

/-- C9: because the internal `locationMap` is empty, `getLocationInfo` is
constant: every identifier resolves to the first configured entry
(`'costa-del-este'`), and the `'san-francisco'` entry is unreachable. -/
theorem getLocationInfo_constant (locationId : Option String) :
    locationMap locationId = none ∧
    getLocationInfo locationId = some ⟨"Costa del Este", "Plaza Costa del Este, Local 45"⟩ ∧
    getLocationInfo locationId ≠ some ⟨"San Francisco", "Calle 74, San Francisco"⟩ := by
  refine ⟨rfl, rfl, fun hcontra => ?_⟩
  have h2 : getLocationInfo locationId =
      some ⟨"Costa del Este", "Plaza Costa del Este, Local 45"⟩ := rfl
  rw [h2] at hcontra
  exact absurd hcontra (by decide)

/-- C9 witness: the unknown identifier `"12345"` and even `"san-francisco"`
itself both resolve to the Costa del Este entry. -/
theorem getLocationInfo_constant_witness :
    getLocationInfo (some "san-francisco") =
      some ⟨"Costa del Este", "Plaza Costa del Este, Local 45"⟩ ∧
    getLocationInfo (some "san-francisco") ≠
      some ⟨"San Francisco", "Calle 74, San Francisco"⟩ :=
  ⟨(getLocationInfo_constant (some "san-francisco")).2.1,
   (getLocationInfo_constant (some "san-francisco")).2.2⟩

/-- C1: a payload with an appointment event type, a truthy phone candidate
and a truthy start-time candidate produces exactly one outbound provider
call whose parameter list is exactly the six entries `"1"`..`"6"` bound, in
order, to client name, location name, formatted date, formatted time,
service name and location address; and the response body's `whatsappSent`
is `true` exactly when the provider call succeeded. -/
theorem webhook_wellformed_single_call (fd ft : String → String) (oc : ProviderOutcome)
    (p : PayloadObj)
    (hev : isTruthy (extractEventType p) = true)
    (happ : jsIncludes (toLowerStr ((extractEventType p).getD "")) "appointment" = true)
    (hph : isTruthy (extractClientPhone p) = true)
    (hst : isTruthy (extractStartDateTime p) = true) :
    (webhookHandler fd ft oc p).2 =
      [⟨(formatPhoneNumber ((extractClientPhone p).getD "")).getD "", templateName,
        "appointment_confirmation",
        [⟨"1", extractClientName p⟩,
         ⟨"2", ((getLocationInfo (extractLocationId p)).getD ⟨"", ""⟩).name⟩,
         ⟨"3", fd ((extractStartDateTime p).getD "")⟩,
         ⟨"4", ft ((extractStartDateTime p).getD "")⟩,
         ⟨"5", extractServiceName p⟩,
         ⟨"6", ((getLocationInfo (extractLocationId p)).getD ⟨"", ""⟩).address⟩]⟩] ∧
    (webhookHandler fd ft oc p).1.2.whatsappSent = some (providerSucceeds oc) := by
  have hskip : eventFilterSkips p = false := by
    unfold eventFilterSkips
    rw [hev, happ]
    rfl
  unfold webhookHandler
  rw [hskip, hph, hst]
  cases oc <;> simp [sendWatiTemplateMessage, providerSucceeds]

/-- C1 witness: a concrete booking payload with provider success. -/
theorem webhook_wellformed_single_call_witness :
    (webhookHandler id id (.ok "sent") samplePayload).2 =
      [⟨"50761234567", "appointment_confirmation", "appointment_confirmation",
        [⟨"1", "Ana"⟩, ⟨"2", "Costa del Este"⟩, ⟨"3", "2024-12-02T14:00:00"⟩,
         ⟨"4", "2024-12-02T14:00:00"⟩, ⟨"5", "Servicio"⟩,
         ⟨"6", "Plaza Costa del Este, Local 45"⟩]⟩] ∧
    (webhookHandler id id (.ok "sent") samplePayload).1.2.whatsappSent = some true := by
  have h := webhook_wellformed_single_call id id (.ok "sent") samplePayload
    (by decide) (by decide) (by decide) (by decide)
  exact ⟨h.1.trans (by decide), h.2.trans (by decide)⟩

/-- C3 counterexample: a payload whose `eventId` is a cancellation value is
not given the claimed `{received, processed:false, reason:"Appointment
cancelled"}` skip — with a phone and start time present it is fully
processed and one outbound call is made. -/
theorem cancellation_claim_cex :
    (webhookHandler id id (.ok "sent") cancelBookingPayload).1.2.reason ≠
      some "Appointment cancelled" ∧
    (webhookHandler id id (.ok "sent") cancelBookingPayload).1.2.processed = true ∧
    (webhookHandler id id (.ok "sent") cancelBookingPayload).2.length = 1 := by
  refine ⟨?_, by decide, by decide⟩
  intro h
  exact absurd ((by decide : (webhookHandler id id (.ok "sent")
    cancelBookingPayload).1.2.reason = none) ▸ h) (by decide)

/-- C3 amended: the handler never reads `eventId`/`EventId` and never
produces the reason `"Appointment cancelled"`: its behaviour is invariant
under changing those fields, and every reason it can produce differs from
`"Appointment cancelled"`. -/
theorem webhook_ignores_eventId (fd ft : String → String) (oc : ProviderOutcome)
    (p : PayloadObj) (v w : Option String) :
    webhookHandler fd ft oc { p with eventId := v, EventId := w } =
      webhookHandler fd ft oc p ∧
    (webhookHandler fd ft oc p).1.2.reason ≠ some "Appointment cancelled" := by
  constructor
  · rfl
  · unfold webhookHandler
    split
    · intro h
      exact absurd (Option.some.inj h) (by decide)
    · split
      · intro h
        exact absurd (Option.some.inj h) (by decide)
      · split
        · intro h
          exact absurd (Option.some.inj h) (by decide)
        · cases oc <;> simp [sendWatiTemplateMessage]

/-- C3 amended witness: changing `eventId` on a concrete payload does not
change the result, and the concrete reason is not "Appointment cancelled". -/
theorem webhook_ignores_eventId_witness :
    webhookHandler id id (.ok "sent")
        { cancelPayload with eventId := some "other", EventId := some "other" } =
      webhookHandler id id (.ok "sent") cancelPayload ∧
    (webhookHandler id id (.ok "sent") cancelPayload).1.2.reason ≠
      some "Appointment cancelled" :=
  webhook_ignores_eventId id id (.ok "sent") cancelPayload (some "other") (some "other")

/-- C4 counterexample: a payload with no phone candidate but a
non-appointment event type is answered with reason "Not an appointment
event", not the claimed "No phone number". -/
theorem missing_phone_reason_cex :
    isTruthy (extractClientPhone classEventPayload) = false ∧
    (webhookHandler id id (.ok "sent") classEventPayload).1.2.reason =
      some "Not an appointment event" ∧
    (webhookHandler id id (.ok "sent") classEventPayload).1.2.reason ≠
      some "No phone number" := by
  refine ⟨by decide, by decide, fun h => ?_⟩
  exact absurd ((by decide : (webhookHandler id id (.ok "sent")
    classEventPayload).1.2.reason = some "Not an appointment event") ▸ h) (by decide)

/-- C4 amended: for every payload that the event filter does not skip and
in which the phone candidate or the start-time candidate is missing, the
handler answers HTTP 200 with `{received:true, processed:false}` and a
reason string — `"No phone number"` whenever the phone is the missing one —
and performs no outbound call. -/
theorem webhook_missing_required_filtered (fd ft : String → String) (oc : ProviderOutcome)
    (p : PayloadObj)
    (hev : eventFilterSkips p = false)
    (hmiss : isTruthy (extractClientPhone p) = false ∨
      isTruthy (extractStartDateTime p) = false) :
    ∃ r : String, webhookHandler fd ft oc p = ((200, filteredBody r), []) ∧
      (isTruthy (extractClientPhone p) = false → r = "No phone number") := by
  unfold webhookHandler
  rw [hev]
  by_cases hph : isTruthy (extractClientPhone p) = false
  · refine ⟨"No phone number", ?_, fun _ => rfl⟩
    rw [hph]
    rfl
  · have hph' : isTruthy (extractClientPhone p) = true := by
      cases h : isTruthy (extractClientPhone p)
      · exact absurd h hph
      · rfl
    have hst : isTruthy (extractStartDateTime p) = false := hmiss.resolve_left hph
    refine ⟨"No start time", ?_, fun h => absurd h hph⟩
    rw [hph', hst]
    rfl

/-- C4 amended witness: the empty payload (filter passes, no phone) yields
the no-phone skip. -/
theorem webhook_missing_required_filtered_witness :
    eventFilterSkips emptyPayload = false ∧
    ∃ r : String, webhookHandler id id (.ok "sent") emptyPayload = ((200, filteredBody r), []) ∧
      (isTruthy (extractClientPhone emptyPayload) = false → r = "No phone number") :=
  ⟨by decide, webhook_missing_required_filtered id id (.ok "sent") emptyPayload
    (by decide) (Or.inl (by decide))⟩

/-- C5: when the provider call fails, `sendWatiTemplateMessage` returns a
`DeliveryResult` with `success = false` carrying the error detail, and the
webhook handler still answers HTTP 200 with `{received:true,
processed:true, whatsappSent:false}` plus that error — delivery failure is
never surfaced as a non-2xx status. -/
theorem webhook_delivery_failure_recovered (fd ft : String → String) (e ph tn : String)
    (params : List Param) (p : PayloadObj)
    (hev : eventFilterSkips p = false)
    (hph : isTruthy (extractClientPhone p) = true)
    (hst : isTruthy (extractStartDateTime p) = true) :
    (sendWatiTemplateMessage (.fail e) ph tn params).1 = ⟨false, none, some e⟩ ∧
    (webhookHandler fd ft (.fail e) p).1 =
      (200, ⟨true, true, none, some false, some e⟩) ∧
    (webhookHandler fd ft (.fail e) p).2.length = 1 := by
  refine ⟨rfl, ?_, ?_⟩ <;>
    (unfold webhookHandler; rw [hev, hph, hst]; simp [sendWatiTemplateMessage])

/-- C5 witness: a concrete booking payload with a failing provider call. -/
theorem webhook_delivery_failure_recovered_witness :
    (sendWatiTemplateMessage (.fail "token expired") "50761234567" templateName []).1 =
      ⟨false, none, some "token expired"⟩ ∧
    (webhookHandler id id (.fail "token expired") samplePayload).1 =
      (200, ⟨true, true, none, some false, some "token expired"⟩) ∧
    (webhookHandler id id (.fail "token expired") samplePayload).2.length = 1 :=
  webhook_delivery_failure_recovered id id "token expired" "50761234567" templateName []
    samplePayload (by decide) (by decide) (by decide)

/-- C10: when none of `eventType`, `EventType`, `messageType` is present the
event filter does not skip the payload; with a phone and start time present
an outbound call is still attempted. -/
theorem webhook_unknown_eventType_processed (fd ft : String → String) (oc : ProviderOutcome)
    (p : PayloadObj)
    (h1 : p.eventType = none) (h2 : p.EventType = none) (h3 : p.messageType = none) :
    eventFilterSkips p = false ∧
    (webhookHandler fd ft oc p).1.2.reason ≠ some "Not an appointment event" ∧
    (isTruthy (extractClientPhone p) = true → isTruthy (extractStartDateTime p) = true →
      (webhookHandler fd ft oc p).2.length = 1) := by
  have het : extractEventType p = none := by
    unfold extractEventType
    rw [h1, h2, h3]
    rfl
  have hskip : eventFilterSkips p = false := by
    unfold eventFilterSkips
    rw [het]
    rfl
  refine ⟨hskip, ?_, fun hph hst => ?_⟩
  · unfold webhookHandler
    rw [hskip, if_neg (by decide : ¬((false : Bool) = true))]
    split
    · intro h
      exact absurd (Option.some.inj h) (by decide)
    · split
      · intro h
        exact absurd (Option.some.inj h) (by decide)
      · cases oc <;> simp [sendWatiTemplateMessage]
  · unfold webhookHandler
    rw [hskip, hph, hst]
    cases oc <;> simp [sendWatiTemplateMessage]

/-- C10 witness: phone and start time present, no event-type candidate:
the payload is processed and one call is made. -/
theorem webhook_unknown_eventType_processed_witness :
    eventFilterSkips noEventPayload = false ∧
    (webhookHandler id id (.ok "sent") noEventPayload).1.2.reason ≠
      some "Not an appointment event" ∧
    (webhookHandler id id (.ok "sent") noEventPayload).2.length = 1 := by
  have h := webhook_unknown_eventType_processed id id (.ok "sent") noEventPayload
    rfl rfl rfl
  exact ⟨h.1, h.2.1, h.2.2 (by decide) (by decide)⟩

/-- C7: the manual-trigger endpoint answers HTTP 400 with an error body and
performs no outbound call when `phone` is absent; when a non-empty `phone`
is present it substitutes the documented default for every absent optional
field, performs exactly one delivery attempt, and returns the raw
`DeliveryResult` as the 200 response body. -/
theorem test_endpoint_contract (oc : ProviderOutcome) (b : TestBody) :
    (b.phone = none →
      testSendConfirmation oc b = ((400, TestResp.err "Phone number required"), [])) ∧
    (∀ s : String, b.phone = some s → s ≠ "" →
      ∃ call : OutboundCall,
        testSendConfirmation oc b =
          ((200, TestResp.result
            (sendWatiTemplateMessage oc call.whatsappNumber templateName call.parameters).1),
           [call]) ∧
        call.whatsappNumber = (formatPhoneNumber s).getD "" ∧
        call.parameters =
          [⟨"1", jsOrD b.name "Test Cliente"⟩,
           ⟨"2", jsOrD b.location "Costa del Este"⟩,
           ⟨"3", jsOrD b.date "Lunes, 2 de diciembre 2024"⟩,
           ⟨"4", jsOrD b.time "2:00 PM"⟩,
           ⟨"5", jsOrD b.service "Masaje Relajante 60 min"⟩,
           ⟨"6", "Plaza Costa del Este"⟩]) := by
  constructor
  · intro h
    unfold testSendConfirmation
    rw [h]
    rfl
  · intro s hs hne
    have htr : isTruthy b.phone = true := by
      rw [hs]
      unfold isTruthy
      simp [hne]
    unfold testSendConfirmation
    rw [htr, hs]
    cases oc <;> exact ⟨_, rfl, rfl, rfl⟩

/-- C7 witness: the body `{phone:"61234567"}` with every optional field
absent uses all the documented defaults and completes a delivery attempt. -/
theorem test_endpoint_contract_witness :
    ∃ call : OutboundCall,
      testSendConfirmation (.ok "sent") { phone := some "61234567" } =
        ((200, TestResp.result
          (sendWatiTemplateMessage (.ok "sent") call.whatsappNumber templateName
            call.parameters).1),
         [call]) ∧
      call.whatsappNumber = (formatPhoneNumber "61234567").getD "" ∧
      call.parameters =
        [⟨"1", "Test Cliente"⟩, ⟨"2", "Costa del Este"⟩,
         ⟨"3", "Lunes, 2 de diciembre 2024"⟩, ⟨"4", "2:00 PM"⟩,
         ⟨"5", "Masaje Relajante 60 min"⟩, ⟨"6", "Plaza Costa del Este"⟩] :=
  (test_endpoint_contract (.ok "sent") { phone := some "61234567" }).2
    "61234567" rfl (by decide)
